import Mathlib

/-!
Shallow embedding of the IronBox DX REST client (`IronBoxDXRESTClient.py`).

The client is a thin wrapper over two external collaborators:

* a Transport: `requests.post(baseAPIUrl + route, json=body, headers=..., verify=...)`,
  modelled as an abstract function `Request → HTTPResponse`;
* a Blob Transfer Delegate (the Azure `BlockBlobService`), whose only behaviour the
  client observes is the sequence of `(current, total)` pairs it feeds to the progress
  callback during a transfer, modelled as an explicit list of such pairs.

Machine-level details modelled explicitly:
* a parsed JSON body is an inductive `Json`; a response whose body does not parse
  (`response.json()` raising) is `body = none`;
* Python exceptions are `Except String`, carrying the message of the `raise` (or the
  class of the builtin error for `ZeroDivisionError` / `KeyError` / `TypeError`);
* the one piece of mutable client state (`self.__lastUploadTotalBytes`, plus the
  `self.sas_service` slot) is threaded through operations explicitly; the constructor
  configuration fields are carried in the same `Client` record;
* Python float division `j/total` followed by `int(...)` is modelled as exact natural
  floor division; the claims under study depend only on the `current == 0` guard and
  on the `ZeroDivisionError` raised when `total == 0`, where floats and exact
  arithmetic agree.
-/

namespace IronBoxDX

/-- JSON values: the request and response payloads exchanged with the REST service. -/
inductive Json where
  | null : Json
  | bool : Bool → Json
  | num : Int → Json
  | str : String → Json
  | arr : List Json → Json
  | obj : List (String × Json) → Json

/-- Python falsiness of a parsed JSON value, as tested by `if not initResponse:` in
`__initializeBlobToSSEContainer`: `None`, `False`, `0`, `""`, `[]` and `{}` are falsy. -/
def Json.falsy : Json → Bool
  | .null => true
  | .bool b => !b
  | .num n => n == 0
  | .str s => s == ""
  | .arr xs => xs.isEmpty
  | .obj fs => fs.isEmpty

/-- Python `d[key]` on a parsed JSON value: returns the value of the field, raises
`KeyError` when the field is missing and `TypeError` when the value is not a dict. -/
def Json.getField : Json → String → Except String Json
  | .obj fields, key =>
    match fields.lookup key with
    | some v => .ok v
    | none => .error ("KeyError: " ++ key)
  | _, _ => .error "TypeError: value is not a dict"

/-- Python use of a JSON value in a context requiring `str` (the argument of
`urlparse`): any non-string raises. -/
def Json.asString : Json → Except String String
  | .str s => .ok s
  | _ => .error "TypeError: expected str"

/-- One HTTP POST as assembled by `__sendPost`: target URL, the two auth headers,
JSON body, and the TLS-verification flag passed to `requests.post`. -/
structure Request where
  url : String
  headers : List (String × String)
  body : Json
  verify : Bool

/-- The transport's answer: `requests.Response`, reduced to the status code and the
parsed body (`none` when the body is not valid JSON, so `.json()` raises). -/
structure HTTPResponse where
  status_code : Nat
  body : Option Json

/-- Embeds `response.json()`: yields the parsed body, raises when it does not parse. -/
def HTTPResponse.json (r : HTTPResponse) : Except String Json :=
  match r.body with
  | some j => .ok j
  | none => .error "JSONDecodeError: response body is not valid JSON"

/-- The external HTTP transport, abstracted as a function. -/
abbrev Transport := Request → HTTPResponse

/-- The `IronBoxDXRESTClient` instance: the six constructor configuration fields,
the mutable `__lastUploadTotalBytes` counter, and the `sas_service` slot holding the
(account name, sas token) pair of the last delegate constructed. -/
structure Client where
  apiKeyPublicID : String
  apiKeySecret : String
  baseAPIUrl : String
  verifySSLCert : Bool
  showDebugInfo : Bool
  verbose : Bool
  lastUploadTotalBytes : Nat
  sas_service : Option (String × Json)

/-- Embeds `__init__`: stores the configuration and sets `__lastUploadTotalBytes = 0`
(`sas_service` is unset until a transfer runs). -/
def IronBoxDXRESTClient (apiKeyPublicID apiKeySecret baseAPIUrl : String)
    (verifySSLCert showDebugInfo verbose : Bool) : Client :=
  { apiKeyPublicID := apiKeyPublicID
    apiKeySecret := apiKeySecret
    baseAPIUrl := baseAPIUrl
    verifySSLCert := verifySSLCert
    showDebugInfo := showDebugInfo
    verbose := verbose
    lastUploadTotalBytes := 0
    sas_service := none }

/-- The request `__sendPost` assembles: `requests.post(self.__baseAPIUrl + route,
json=data, headers={publicid, secret}, verify=self.__verifySSLCert)`. -/
def postRequest (c : Client) (route : String) (data : Json) : Request :=
  { url := c.baseAPIUrl ++ route
    headers := [("ironbox_apikey_publicid", c.apiKeyPublicID),
                ("ironbox_apikey_secret", c.apiKeySecret)]
    body := data
    verify := c.verifySSLCert }

/-- Embeds `__sendPost`: assemble the request and hand it to the transport. The
debug print of the status code and raw content does not alter the response and is
not modelled. -/
def sendPost (c : Client) (transport : Transport) (route : String) (data : Json) :
    HTTPResponse :=
  transport (postRequest c route data)

/-! ### URL parsing (`urllib.parse.urlparse(...).hostname`)

`__extractStorageAccountName` computes `urlparse(uri).hostname.split('.')[0]`.
The chain below embeds the relevant steps of CPython's `urlsplit` and the
`hostname` property: strip a syntactically valid `scheme:` prefix; a netloc is
present only when the remainder starts with `//` and extends to the first of
`/`, `?`, `#`; the host info is what follows the last `@`; a bracketed IPv6
host is the part between `[` and `]`, otherwise the host is what precedes the
first `:`; an empty host is `None`, a non-empty one is lowercased. -/

/-- Characters CPython accepts inside a URL scheme. -/
def schemeChar (ch : Char) : Bool :=
  ch.isAlpha || ch.isDigit || ch == '+' || ch == '-' || ch == '.'

/-- Strips `scheme:` when the part before the first `:` is a non-empty run of
scheme characters, as `urlsplit` does. -/
def removeScheme (url : List Char) : List Char :=
  let pre := url.takeWhile (fun ch => ch ≠ ':')
  if pre.length < url.length && 0 < pre.length && pre.all schemeChar then
    url.drop (pre.length + 1)
  else url

/-- The netloc: present only after a leading `//`, ending at the first `/`, `?`
or `#` (CPython's `_splitnetloc`). -/
def netlocOf : List Char → List Char
  | '/' :: '/' :: rest => rest.takeWhile (fun ch => ch ≠ '/' && ch ≠ '?' && ch ≠ '#')
  | _ => []

/-- Everything after the last `@` (CPython's `netloc.rpartition('@')[2]`). -/
def afterLastAt (l : List Char) : List Char :=
  (l.reverse.takeWhile (fun ch => ch ≠ '@')).reverse

/-- The `hostname` property computed from a netloc: `None` for an empty host,
otherwise the lowercased host. -/
def hostnameOfNetloc (netloc : List Char) : Option String :=
  let hostinfo := afterLastAt netloc
  let hostname :=
    if hostinfo.contains '[' then
      ((hostinfo.dropWhile (fun ch => ch ≠ '[')).drop 1).takeWhile (fun ch => ch ≠ ']')
    else
      hostinfo.takeWhile (fun ch => ch ≠ ':')
  if hostname.isEmpty then none else some (String.mk (hostname.map Char.toLower))

/-- Embeds `urlparse(uri).hostname`. -/
def urlparseHostname (uri : String) : Option String :=
  hostnameOfNetloc (netlocOf (removeScheme uri.toList))

/-- Embeds Python `str.split(sep)` for a one-character separator: cutting the
string at every occurrence of the separator, keeping empty pieces. -/
def pysplit (sep : Char) : List Char → List (List Char)
  | [] => [[]]
  | ch :: rest =>
    let tailPieces := pysplit sep rest
    if ch = sep then
      [] :: tailPieces
    else
      match tailPieces with
      | [] => [[ch]]
      | piece :: pieces => (ch :: piece) :: pieces

/-- Embeds `__extractStorageAccountName`:
`urlparse(accessSignatureUri).hostname.split('.')[0]`. When `hostname` is `None`
the attribute access `.split` raises. -/
def extractStorageAccountName (accessSignatureUri : String) : Except String String :=
  match urlparseHostname accessSignatureUri with
  | none => .error "AttributeError: NoneType object has no attribute split"
  | some hostname => .ok (String.mk ((pysplit '.' hostname.toList).headD []))

/-! ### Progress bar and callbacks -/

/-- The fill width computed by `show` inside `__progressbar`:
`x = 0 if current == 0 else int(progressBarSize * (j/total))`. Python raises
`ZeroDivisionError` on `j/total` when `total == 0` and `current != 0`; otherwise
the value is the floor of the exact ratio. -/
def progressbarFill (current total progressBarSize : Nat) : Except String Nat :=
  if current = 0 then .ok 0
  else if total = 0 then .error "ZeroDivisionError"
  else .ok (progressBarSize * current / total)

/-- Embeds `__progressbar`: one call writes the bar line (ending in `\r`), then a
lone `\r`, then — only when `current == total` — a final `\n`. The result is the
full text written to the output stream, or the error raised while computing the
fill width. -/
def progressbar (current total : Nat) (label : String) (progressBarSize : Nat) :
    Except String String :=
  match progressbarFill current total progressBarSize with
  | .error e => .error e
  | .ok x =>
    let line := label ++ " [" ++ String.mk (List.replicate x '#')
      ++ String.mk (List.replicate (progressBarSize - x) '.') ++ "] "
      ++ Nat.repr current ++ "/" ++ Nat.repr total ++ "\r"
    .ok (line ++ "\r" ++ (if current = total then "\n" else ""))

/-- Embeds `__upload_callback`: when `self.__verbose and (current != 0)`, draw the
bar and then store `total` in `__lastUploadTotalBytes`; otherwise do nothing.
Returns the console output together with the new `__lastUploadTotalBytes`. -/
def upload_callback (verbose : Bool) (lastUploadTotalBytes : Nat)
    (current total : Nat) : Except String (String × Nat) :=
  if verbose && current != 0 then
    match progressbar current total "Uploading" 40 with
    | .error e => .error e
    | .ok out => .ok (out, total)
  else
    .ok ("", lastUploadTotalBytes)

/-- Embeds `__download_callback`: when `self.__verbose and (current != 0)`, draw
the bar; there is no state update. Returns the console output. -/
def download_callback (verbose : Bool) (current total : Nat) : Except String String :=
  if verbose && current != 0 then
    progressbar current total "Downloading" 40
  else
    .ok ""

/-- Runs the upload progress callback over the sequence of `(current, total)`
pairs the Blob Transfer Delegate reports during one transfer, threading
`__lastUploadTotalBytes` through the client; stops at the first raised error
(`some message`), which the delegate call propagates. -/
def runUploadCallbacks (c : Client) : List (Nat × Nat) → Option String × Client
  | [] => (none, c)
  | (current, total) :: rest =>
    match upload_callback c.verbose c.lastUploadTotalBytes current total with
    | .error e => (some e, c)
    | .ok (_, newLast) =>
      runUploadCallbacks { c with lastUploadTotalBytes := newLast } rest

/-- Runs the download progress callback over the delegate's reported
`(current, total)` pairs; no client state is touched. -/
def runDownloadCallbacks (verbose : Bool) : List (Nat × Nat) → Except String Unit
  | [] => .ok ()
  | (current, total) :: rest =>
    match download_callback verbose current total with
    | .error _e => .error _e
    | .ok _ => runDownloadCallbacks verbose rest

/-! ### Control-plane operations

Each method of the source builds a JSON body, calls `__sendPost`, raises its named
error on a non-200 status, and otherwise parses and returns the JSON body. The
console logging of `__log` is plain output with no effect on results and is not
modelled. `requests.codes["ok"]` is the literal `200`. -/

/-- Body built by `__initializeBlobToSSEContainer`. -/
def initializeBody (containerPublicID blobName blobDescription
    containerAccessPassword : String) : Json :=
  .obj [("containerPublicID", .str containerPublicID),
        ("blobName", .str blobName),
        ("blobDescription", .str blobDescription),
        ("containerAccessPassword", .str containerAccessPassword)]

/-- Embeds `__initializeBlobToSSEContainer`: non-200 raises
`"Unable to initialize SSE blob"`; a 200 whose parsed body is falsy raises
`"Initialize SSE blob returned an invalid response"`; otherwise the parsed
response is returned. -/
def initializeBlobToSSEContainer (c : Client) (transport : Transport)
    (containerPublicID blobName blobDescription containerAccessPassword : String) :
    Except String Json :=
  let initPostResponse := sendPost c transport "dx/cloud/sse/blob/initialize/api"
    (initializeBody containerPublicID blobName blobDescription containerAccessPassword)
  if initPostResponse.status_code ≠ 200 then
    .error "Unable to initialize SSE blob"
  else
    match initPostResponse.json with
    | .error e => .error e
    | .ok initResponse =>
      if initResponse.falsy then
        .error "Initialize SSE blob returned an invalid response"
      else
        .ok initResponse

/-- Body built by `__finalizeBlobInSSEContainer`; the token and blob id are the
values taken from the initialize response, embedded unchanged. -/
def finalizeBody (finalizeToken blobPublicID : Json) (blobSizeBytes : Int) : Json :=
  .obj [("finalizeToken", finalizeToken),
        ("blobPublicID", blobPublicID),
        ("originalSizeBytes", .num blobSizeBytes)]

/-- Embeds `__finalizeBlobInSSEContainer`: non-200 raises
`"Unable to finalize SSE blob"`; the parsed body is returned as is — the source
notes the current implementation returns an empty response here, so the parsed
`null` is a valid success value, with no falsiness check. -/
def finalizeBlobInSSEContainer (c : Client) (transport : Transport)
    (finalizeToken blobPublicID : Json) (blobSizeBytes : Int) : Except String Json :=
  let finalizePostResponse := sendPost c transport "dx/cloud/sse/blob/finalize/api"
    (finalizeBody finalizeToken blobPublicID blobSizeBytes)
  if finalizePostResponse.status_code ≠ 200 then
    .error "Unable to finalize SSE blob"
  else
    finalizePostResponse.json

/-- Embeds `listStorageEndpointsForUser`. -/
def listStorageEndpointsForUser (c : Client) (transport : Transport) :
    Except String Json :=
  let listPostResponse := sendPost c transport "dx/storage/list/api" (.obj [])
  if listPostResponse.status_code ≠ 200 then
    .error "Unable to get list of accessible storage endpoints"
  else
    listPostResponse.json

/-- Embeds `createSSEContainer`. -/
def createSSEContainer (c : Client) (transport : Transport)
    (name storageEndpointPublicID description : String)
    (anonymousAccessEnabled : Bool)
    (anonymousAccessPassword humanReadableID : String) : Except String Json :=
  let post_create_body : Json :=
    .obj [("name", .str name),
          ("description", .str description),
          ("anonymousAccessEnabled", .bool anonymousAccessEnabled),
          ("anonymousAccessPassword", .str anonymousAccessPassword),
          ("cloudStorageEndpointPublicID", .str storageEndpointPublicID),
          ("humanReadableID", .str humanReadableID)]
  let createPostResponse := sendPost c transport "dx/cloud/sse/container/create/api"
    post_create_body
  if createPostResponse.status_code ≠ 200 then
    .error "Unable to create SSE container"
  else
    createPostResponse.json

/-- Embeds `deleteSSEContainer`. -/
def deleteSSEContainer (c : Client) (transport : Transport)
    (containerPublicID : String) : Except String Json :=
  let deletePostResponse := sendPost c transport "dx/cloud/sse/container/delete/api"
    (.obj [("containerPublicID", .str containerPublicID)])
  if deletePostResponse.status_code ≠ 200 then
    .error "Unable to delete SSE container"
  else
    deletePostResponse.json

/-- Embeds `listSSEContainers`. -/
def listSSEContainers (c : Client) (transport : Transport)
    (includeContainersQueuedForDelete : Bool) : Except String Json :=
  let listPostResponse := sendPost c transport "dx/cloud/sse/containers/get/api"
    (.obj [("includeContainersQueuedForDelete", .bool includeContainersQueuedForDelete)])
  if listPostResponse.status_code ≠ 200 then
    .error "Unable to list server-side encrypted containers"
  else
    listPostResponse.json

/-- Embeds `listSSEContainerBlobs`. -/
def listSSEContainerBlobs (c : Client) (transport : Transport)
    (containerPublicID : String) (skipPastNumItems takeNumItems state : Int) :
    Except String Json :=
  let listPostResponse := sendPost c transport "dx/cloud/sse/blob/get/api"
    (.obj [("containerPublicID", .str containerPublicID),
           ("skipPastNumItems", .num skipPastNumItems),
           ("takeNumItems", .num takeNumItems),
           ("state", .num state)])
  if listPostResponse.status_code ≠ 200 then
    .error "Unable to list server-side encrypted blobs"
  else
    listPostResponse.json

/-- Embeds `deleteSSEContainerBlob`. The method parses the 200 response into a
local (`deleteResponse = deletePostResponse.json()`), but its `return` statement
is commented out, so the parsed value is discarded and the method returns `None`
(modelled as `.ok none`). -/
def deleteSSEContainerBlob (c : Client) (transport : Transport)
    (blobPublicID : String) : Except String (Option Json) :=
  let deletePostResponse := sendPost c transport "dx/cloud/sse/blob/delete/api"
    (.obj [("blobPublicID", .str blobPublicID)])
  if deletePostResponse.status_code ≠ 200 then
    .error "Unable to delete server-side encrypted blob"
  else
    match deletePostResponse.json with
    | .error e => .error e
    | .ok _deleteResponse => .ok none

/-- Embeds `getContainerNotificationSettings`. -/
def getContainerNotificationSettings (c : Client) (transport : Transport)
    (containerPublicID : String) : Except String Json :=
  let notificationPostResponse := sendPost c transport
    "dx/cloud/container/notification/get/api"
    (.obj [("containerPublicID", .str containerPublicID)])
  if notificationPostResponse.status_code ≠ 200 then
    .error "Unable to read container notification settings"
  else
    notificationPostResponse.json

/-- Embeds `setContainerNotificationSettings`; the two notification lists are
caller-supplied JSON embedded unchanged. -/
def setContainerNotificationSettings (c : Client) (transport : Transport)
    (containerPublicID : String)
    (uploadNotificationList downloadNotificationList : Json) : Except String Json :=
  let notificationPostResponse := sendPost c transport
    "dx/cloud/container/notification/set/api"
    (.obj [("containerPublicID", .str containerPublicID),
           ("uploadNotificationList", uploadNotificationList),
           ("downloadNotificationList", downloadNotificationList)])
  if notificationPostResponse.status_code ≠ 200 then
    .error "Unable to set container notification settings"
  else
    notificationPostResponse.json

/-- Embeds `addUserToSSEContainerACLs`. -/
def addUserToSSEContainerACLs (c : Client) (transport : Transport)
    (containerPublicID userEmail : String)
    (canRead canWrite isAdmin enabled : Bool)
    (availableUtc expiresUtc : String) : Except String Json :=
  let sseACLPostResponse := sendPost c transport "dx/cloud/sse/containers/acl/add/api"
    (.obj [("containerPublicID", .str containerPublicID),
           ("userEmail", .str userEmail),
           ("canRead", .bool canRead),
           ("canWrite", .bool canWrite),
           ("isAdmin", .bool isAdmin),
           ("enabled", .bool enabled),
           ("availableUtc", .str availableUtc),
           ("expiresUtc", .str expiresUtc)])
  if sseACLPostResponse.status_code ≠ 200 then
    .error "Unable to add user to server-side encrypted container ACLs"
  else
    sseACLPostResponse.json

/-- Embeds `addCustomSecurityGroupToSSEContainerACLs`. -/
def addCustomSecurityGroupToSSEContainerACLs (c : Client) (transport : Transport)
    (containerPublicID customSecurityGroupPublicID : String)
    (canRead canWrite isAdmin enabled : Bool)
    (availableUtc expiresUtc : String) : Except String Json :=
  let sseACLPostResponse := sendPost c transport
    "dx/cloud/sse/containers/acl/secgroups/custom/add/api"
    (.obj [("containerPublicID", .str containerPublicID),
           ("customSecurityGroupPublicID", .str customSecurityGroupPublicID),
           ("canRead", .bool canRead),
           ("canWrite", .bool canWrite),
           ("isAdmin", .bool isAdmin),
           ("enabled", .bool enabled),
           ("availableUtc", .str availableUtc),
           ("expiresUtc", .str expiresUtc)])
  if sseACLPostResponse.status_code ≠ 200 then
    .error "Unable to add custom security group to server-side encrypted container ACLs"
  else
    sseACLPostResponse.json

/-- Embeds `deleteSSEContainerACL`. -/
def deleteSSEContainerACL (c : Client) (transport : Transport)
    (containerPublicID membershipPublicID : String) : Except String Json :=
  let sseACLPostResponse := sendPost c transport
    "dx/cloud/sse/containers/acl/delete/api"
    (.obj [("containerPublicID", .str containerPublicID),
           ("membershipPublicID", .str membershipPublicID)])
  if sseACLPostResponse.status_code ≠ 200 then
    .error "Unable to remove server-side encrypted container ACL"
  else
    sseACLPostResponse.json

/-- Embeds `listSSEContainerACLs` (note the body key is `publicID`). -/
def listSSEContainerACLs (c : Client) (transport : Transport)
    (containerPublicID : String) : Except String Json :=
  let sseACLPostResponse := sendPost c transport
    "dx/cloud/sse/containers/acl/list/api"
    (.obj [("publicID", .str containerPublicID)])
  if sseACLPostResponse.status_code ≠ 200 then
    .error "Unable to read server-side encrypted container ACLs"
  else
    sseACLPostResponse.json

/-- Embeds `management_readContainerMetaData`. -/
def management_readContainerMetaData (c : Client) (transport : Transport)
    (containerPublicID : String) : Except String Json :=
  let readMetaDataPostResponse := sendPost c transport
    "dx/management/container/metadata/api"
    (.obj [("containerPublicID", .str containerPublicID)])
  if readMetaDataPostResponse.status_code ≠ 200 then
    .error "Unable to read meta data for blob"
  else
    readMetaDataPostResponse.json

/-- Embeds `management_setEntityOrganizationMembershipStatus`. -/
def management_setEntityOrganizationMembershipStatus (c : Client)
    (transport : Transport) (memberEmail : String) (enabled : Bool) :
    Except String Json :=
  let enableUserPostResponse := sendPost c transport
    "dx/management/organization/entities/membership/status/set/api"
    (.obj [("memberEmail", .str memberEmail), ("enabled", .bool enabled)])
  if enableUserPostResponse.status_code ≠ 200 then
    .error "Unable to set organization user status"
  else
    enableUserPostResponse.json

/-- Embeds `management_createOrganizationEntity`. -/
def management_createOrganizationEntity (c : Client) (transport : Transport)
    (memberEmail memberPassword : String) (enabled : Bool) : Except String Json :=
  let createUserPostResponse := sendPost c transport
    "dx/management/organization/entities/create/api"
    (.obj [("email", .str memberEmail),
           ("password", .str memberPassword),
           ("enabled", .bool enabled)])
  if createUserPostResponse.status_code ≠ 200 then
    .error "Unable to create organization entity"
  else
    createUserPostResponse.json

/-- Embeds `management_listOrganizationMemberEntities`. -/
def management_listOrganizationMemberEntities (c : Client) (transport : Transport)
    (skipPastNumItems takeNumItems : Int) : Except String Json :=
  let listOrgMembersPostResponse := sendPost c transport
    "dx/management/organization/entities/api"
    (.obj [("skipPastNumItems", .num skipPastNumItems),
           ("takeNumItems", .num takeNumItems)])
  if listOrgMembersPostResponse.status_code ≠ 200 then
    .error "Unable to list organization member entities"
  else
    listOrgMembersPostResponse.json

/-- Embeds `management_readOrganizationMemberEntityMetadata`. -/
def management_readOrganizationMemberEntityMetadata (c : Client)
    (transport : Transport) (memberPublicID : String) : Except String Json :=
  let readOrgMemberEntityMetadataPostResponse := sendPost c transport
    "dx/management/organization/entities/metadata/api"
    (.obj [("memberPublicID", .str memberPublicID)])
  if readOrgMemberEntityMetadataPostResponse.status_code ≠ 200 then
    .error "Unable to read organization member entity metadata"
  else
    readOrgMemberEntityMetadataPostResponse.json

/-- Embeds `management_setContainerDataTtl`. -/
def management_setContainerDataTtl (c : Client) (transport : Transport)
    (containerPublicID : String) (containerDataTTLHours : Int)
    (containerDataTTLEnabled : Bool) : Except String Json :=
  let postResponse := sendPost c transport "dx/management/container/datattl/api"
    (.obj [("containerPublicID", .str containerPublicID),
           ("containerDataTTLHours", .num containerDataTTLHours),
           ("containerDataTTLEnabled", .bool containerDataTTLEnabled)])
  if postResponse.status_code ≠ 200 then
    .error "Unable to set container data ttl"
  else
    postResponse.json

/-- Embeds `management_setContainerMetadata`. -/
def management_setContainerMetadata (c : Client) (transport : Transport)
    (containerPublicID : String) (metaDataTarget : Int) (metaDataValue : String) :
    Except String Json :=
  let postResponse := sendPost c transport "dx/management/container/metadata/set/api"
    (.obj [("containerPublicID", .str containerPublicID),
           ("metaDataTarget", .num metaDataTarget),
           ("metaDataValue", .str metaDataValue)])
  if postResponse.status_code ≠ 200 then
    .error "Unable to set container metadata"
  else
    postResponse.json

/-- Embeds `management_createCustomSecurityGroup`. -/
def management_createCustomSecurityGroup (c : Client) (transport : Transport)
    (name : String) (enabled : Bool) : Except String Json :=
  let postResponse := sendPost c transport
    "dx/management/organization/secgroups/custom/create/api"
    (.obj [("name", .str name), ("enabled", .bool enabled)])
  if postResponse.status_code ≠ 200 then
    .error "Unable to create custom security group"
  else
    postResponse.json

/-- Embeds `management_deleteCustomSecurityGroup`. -/
def management_deleteCustomSecurityGroup (c : Client) (transport : Transport)
    (publicID : String) : Except String Json :=
  let postResponse := sendPost c transport
    "dx/management/organization/secgroups/custom/delete/api"
    (.obj [("publicID", .str publicID)])
  if postResponse.status_code ≠ 200 then
    .error "Unable to delete custom security group"
  else
    postResponse.json

/-- Embeds `management_updateCustomSecurityGroup`. -/
def management_updateCustomSecurityGroup (c : Client) (transport : Transport)
    (publicID name : String) (enabled : Bool) : Except String Json :=
  let postResponse := sendPost c transport
    "dx/management/organization/secgroups/custom/update/api"
    (.obj [("publicID", .str publicID),
           ("name", .str name),
           ("enabled", .bool enabled)])
  if postResponse.status_code ≠ 200 then
    .error "Unable to update custom security group"
  else
    postResponse.json

/-- Embeds `management_addMemberToCustomSecurityGroup`. -/
def management_addMemberToCustomSecurityGroup (c : Client) (transport : Transport)
    (publicID memberEmail : String) : Except String Json :=
  let postResponse := sendPost c transport
    "dx/management/organization/secgroups/custom/addmember/api"
    (.obj [("publicID", .str publicID), ("memberEmail", .str memberEmail)])
  if postResponse.status_code ≠ 200 then
    .error "Unable to add member to custom security group"
  else
    postResponse.json

/-- Embeds `management_removeMemberFromCustomSecurityGroup`. -/
def management_removeMemberFromCustomSecurityGroup (c : Client)
    (transport : Transport) (publicID memberEmail : String) : Except String Json :=
  let postResponse := sendPost c transport
    "dx/management/organization/secgroups/custom/removemember/api"
    (.obj [("publicID", .str publicID), ("memberEmail", .str memberEmail)])
  if postResponse.status_code ≠ 200 then
    .error "Unable to remove member from custom security group"
  else
    postResponse.json

/-- Embeds `management_listCustomSecurityGroups` (empty body). -/
def management_listCustomSecurityGroups (c : Client) (transport : Transport) :
    Except String Json :=
  let postResponse := sendPost c transport
    "dx/management/organization/secgroups/custom/api" (.obj [])
  if postResponse.status_code ≠ 200 then
    .error "Unable to list custom security groups"
  else
    postResponse.json

/-- Embeds `management_readCustomSecurityGroup`. -/
def management_readCustomSecurityGroup (c : Client) (transport : Transport)
    (publicID : String) : Except String Json :=
  let postResponse := sendPost c transport
    "dx/management/organization/secgroups/custom/read/api"
    (.obj [("publicID", .str publicID)])
  if postResponse.status_code ≠ 200 then
    .error "Unable to read custom security group"
  else
    postResponse.json

/-- Embeds `management_readContainerLinkBasedAccessSettings`. -/
def management_readContainerLinkBasedAccessSettings (c : Client)
    (transport : Transport) (publicID : String) : Except String Json :=
  let postResponse := sendPost c transport
    "dx/management/container/settings/linkbased/api"
    (.obj [("publicID", .str publicID)])
  if postResponse.status_code ≠ 200 then
    .error "Unable to read container link-based settings"
  else
    postResponse.json

/-- Embeds `management_setContainerLinkBasedAccessSettings`. -/
def management_setContainerLinkBasedAccessSettings (c : Client)
    (transport : Transport) (publicID : String)
    (enabled canRead canWrite : Bool) (accessPassword : String) :
    Except String Json :=
  let postResponse := sendPost c transport
    "dx/management/container/settings/linkbased/set/api"
    (.obj [("publicID", .str publicID),
           ("enabled", .bool enabled),
           ("canRead", .bool canRead),
           ("canWrite", .bool canWrite),
           ("accessPassword", .str accessPassword)])
  if postResponse.status_code ≠ 200 then
    .error "Unable to set container link-based settings"
  else
    postResponse.json

/-- Embeds `management_addMemberToBuiltInSecurityGroup`. -/
def management_addMemberToBuiltInSecurityGroup (c : Client) (transport : Transport)
    (groupName memberEmail : String) : Except String Json :=
  let postResponse := sendPost c transport
    "dx/management/organization/secgroups/builtin/addmember/api"
    (.obj [("groupName", .str groupName), ("memberEmail", .str memberEmail)])
  if postResponse.status_code ≠ 200 then
    .error "Unable to add member to built-in security group"
  else
    postResponse.json

/-- Embeds `management_removeMemberFromBuiltInSecurityGroup`. -/
def management_removeMemberFromBuiltInSecurityGroup (c : Client)
    (transport : Transport) (groupName memberEmail : String) : Except String Json :=
  let postResponse := sendPost c transport
    "dx/management/organization/secgroups/builtin/removemember/api"
    (.obj [("groupName", .str groupName), ("memberEmail", .str memberEmail)])
  if postResponse.status_code ≠ 200 then
    .error "Unable to remove member from built-in security group"
  else
    postResponse.json

/-- Embeds `management_readBuiltInSecurityGroup`. -/
def management_readBuiltInSecurityGroup (c : Client) (transport : Transport)
    (groupName : String) : Except String Json :=
  let postResponse := sendPost c transport
    "dx/management/organization/secgroups/builtin/read/api"
    (.obj [("groupName", .str groupName)])
  if postResponse.status_code ≠ 200 then
    .error "Unable to read built-in security group"
  else
    postResponse.json

/-! ### Transfers -/

/-- The outcome of one upload method: the returned value (`None` on success,
modelled as `Unit`, or the raised error), the client state afterwards (mutations
made before an error persist, as in Python), and the POST requests sent. -/
structure UploadResult where
  result : Except String Unit
  client : Client
  sentRequests : List Request

/-- The part of `uploadBlobToSSEContainerFromPath` / `...FromText` after a
successful initialize; the two methods' remaining statements are line-identical
in the source. In Python order: extract the storage account name from
`initResponse["accessSignatureUri"]`; build the `BlockBlobService` (storing it in
`self.sas_service`) from that name and `initResponse["accessToken"]`; read the
cloud blob/container storage names (keyword arguments of the delegate call);
run the delegate, which drives the progress callback; finalize with
`initResponse['finalizeToken']`, `initResponse['blobPublicID']` and
`self.__lastUploadTotalBytes`. -/
def uploadCommonTail (c : Client) (transport : Transport)
    (events : List (Nat × Nat)) (initResponse : Json) (sent : List Request) :
    UploadResult :=
  match (initResponse.getField "accessSignatureUri").bind Json.asString with
  | .error e => ⟨.error e, c, sent⟩
  | .ok accessSignatureUri =>
    match extractStorageAccountName accessSignatureUri with
    | .error e => ⟨.error e, c, sent⟩
    | .ok storage_account_name =>
      match initResponse.getField "accessToken" with
      | .error e => ⟨.error e, c, sent⟩
      | .ok accessToken =>
        let c1 : Client :=
          { c with sas_service := some (storage_account_name, accessToken) }
        match initResponse.getField "cloudBlobStorageName",
              initResponse.getField "cloudContainerStorageName" with
        | .error e, _ => ⟨.error e, c1, sent⟩
        | .ok _, .error e => ⟨.error e, c1, sent⟩
        | .ok _, .ok _ =>
          match runUploadCallbacks c1 events with
          | (some e, c2) => ⟨.error e, c2, sent⟩
          | (none, c2) =>
            match initResponse.getField "finalizeToken",
                  initResponse.getField "blobPublicID" with
            | .error e, _ => ⟨.error e, c2, sent⟩
            | .ok _, .error e => ⟨.error e, c2, sent⟩
            | .ok finalizeToken, .ok blobPublicID =>
              let finalizeReq := postRequest c2 "dx/cloud/sse/blob/finalize/api"
                (finalizeBody finalizeToken blobPublicID
                  (c2.lastUploadTotalBytes : Int))
              match finalizeBlobInSSEContainer c2 transport finalizeToken
                  blobPublicID (c2.lastUploadTotalBytes : Int) with
              | .error e => ⟨.error e, c2, sent ++ [finalizeReq]⟩
              | .ok _ => ⟨.ok (), c2, sent ++ [finalizeReq]⟩

/-- Embeds `uploadBlobToSSEContainerFromPath`. The delegate's
`create_blob_from_path` is abstracted to the `(current, total)` progress pairs it
reports (`events`); `sourceFilePath` is opaque — the source never reads local
file metadata for the size (the `os.stat` lines are commented out). -/
def uploadBlobToSSEContainerFromPath (c : Client) (transport : Transport)
    (events : List (Nat × Nat))
    (containerPublicID blobName sourceFilePath blobDescription
      containerAccessPassword : String) : UploadResult :=
  let initReq := postRequest c "dx/cloud/sse/blob/initialize/api"
    (initializeBody containerPublicID blobName blobDescription containerAccessPassword)
  match initializeBlobToSSEContainer c transport containerPublicID blobName
      blobDescription containerAccessPassword with
  | .error e => ⟨.error e, c, [initReq]⟩
  | .ok initResponse => uploadCommonTail c transport events initResponse [initReq]

/-- Embeds `uploadBlobToSSEContainerFromText`. The delegate's
`create_blob_from_text` is abstracted to the `(current, total)` progress pairs it
reports; the text and its encoding only determine those pairs. -/
def uploadBlobToSSEContainerFromText (c : Client) (transport : Transport)
    (events : List (Nat × Nat))
    (containerPublicID blobName sourceText encoding blobDescription
      containerAccessPassword : String) : UploadResult :=
  let initReq := postRequest c "dx/cloud/sse/blob/initialize/api"
    (initializeBody containerPublicID blobName blobDescription containerAccessPassword)
  match initializeBlobToSSEContainer c transport containerPublicID blobName
      blobDescription containerAccessPassword with
  | .error e => ⟨.error e, c, [initReq]⟩
  | .ok initResponse => uploadCommonTail c transport events initResponse [initReq]

/-- Embeds `downloadSSEContainerBlobToPath`: POST the blob id, then hand the
handshake to the delegate's `get_blob_to_path`, abstracted to the progress pairs
it reports; no finalize step. Returns the value (`None` on success) and the
client (whose `sas_service` slot was assigned). -/
def downloadSSEContainerBlobToPath (c : Client) (transport : Transport)
    (events : List (Nat × Nat)) (blobPublicID destinationFilePath : String) :
    Except String Unit × Client :=
  let downloadPostResponse := sendPost c transport "dx/cloud/sse/blob/download/api"
    (.obj [("blobPublicID", .str blobPublicID)])
  if downloadPostResponse.status_code ≠ 200 then
    (.error "Unable to download SSE blob", c)
  else
    match downloadPostResponse.json with
    | .error e => (.error e, c)
    | .ok downloadResponse =>
      match (downloadResponse.getField "accessSignatureUri").bind Json.asString with
      | .error e => (.error e, c)
      | .ok accessSignatureUri =>
        match extractStorageAccountName accessSignatureUri with
        | .error e => (.error e, c)
        | .ok storage_account_name =>
          match downloadResponse.getField "accessToken" with
          | .error e => (.error e, c)
          | .ok accessToken =>
            let c1 : Client :=
              { c with sas_service := some (storage_account_name, accessToken) }
            match downloadResponse.getField "cloudBlobStorageName",
                  downloadResponse.getField "cloudContainerStorageName" with
            | .error e, _ => (.error e, c1)
            | .ok _, .error e => (.error e, c1)
            | .ok _, .ok _ =>
              match runDownloadCallbacks c1.verbose events with
              | .error e => (.error e, c1)
              | .ok _ => (.ok (), c1)

/-! ### Helper lemmas -/

/-- `str.split(sep)` never yields an empty list of pieces. -/
theorem pysplit_ne_nil (sep : Char) (l : List Char) : pysplit sep l ≠ [] := by
  cases l with
  | nil => simp [pysplit]
  | cons ch rest =>
    simp only [pysplit]
    split
    · simp
    · split <;> simp

/-- The first piece of `str.split(sep)` is the prefix before the first
occurrence of the separator. -/
theorem headD_pysplit (sep : Char) (l : List Char) :
    (pysplit sep l).headD [] = l.takeWhile (fun ch => ch ≠ sep) := by
  induction l with
  | nil => simp [pysplit]
  | cons ch rest ih =>
    simp only [pysplit, List.takeWhile]
    by_cases h : ch = sep
    · simp [h]
    · rcases hrest : pysplit sep rest with _ | ⟨piece, pieces⟩
      · exact absurd hrest (pysplit_ne_nil sep rest)
      · rw [hrest] at ih
        simp only [List.headD] at ih
        simp [h, ih]

/-- Splitting string concatenation into list concatenation. -/
theorem toList_append (s t : String) : (s ++ t).toList = s.toList ++ t.toList := by
  simp [String.toList, String.data_append]

/-- Line-ending shape of the progress-bar output: appending `"\r"` and then a
conditional `"\n"` ends in `'\n'` exactly when the condition holds, and in
`'\r'` otherwise. -/
theorem cr_nl_getLast (A : String) (p : Prop) [Decidable p] :
    (((A ++ "\r") ++ (if p then "\n" else "")).toList.getLast? = some '\n' ↔ p) ∧
    (¬p → ((A ++ "\r") ++ (if p then "\n" else "")).toList.getLast? = some '\r') := by
  by_cases hp : p
  · rw [if_pos hp, toList_append, show ("\n".toList) = ['\n'] from by decide,
        List.getLast?_concat]
    exact ⟨⟨fun _ => hp, fun _ => rfl⟩, fun hcontr => absurd hp hcontr⟩
  · rw [if_neg hp]
    have h0 : ((A ++ "\r") ++ "").toList.getLast? = some '\r' := by
      rw [toList_append, toList_append, show ("\r".toList) = ['\r'] from by decide,
          show ("".toList) = ([] : List Char) from by decide, List.append_nil,
          List.getLast?_concat]
    rw [h0]
    refine ⟨⟨fun hcontr => ?_, fun hpp => absurd hpp hp⟩, fun _ => rfl⟩
    exact absurd (Option.some.inj hcontr) (by decide)

/-! ### Claim C8 -/

/-- Modelled from the spec's words: the first DNS label of a host name is the
substring of the host name before the first dot. -/
def firstDnsLabel (hostname : String) : String :=
  String.mk (hostname.toList.takeWhile (fun ch => ch ≠ '.'))

/-- C8: for every access-signature URI with a (nonempty) host name, the
storage-account identifier `__extractStorageAccountName` derives equals the
first DNS label of that URI's host name, i.e. the substring of the hostname
before the first dot. (When the URI has no host, `urlparse(...).hostname` is
`None` and the claim's premise does not apply.) -/
theorem extract_storage_account_is_first_dns_label (uri hostname : String)
    (h : urlparseHostname uri = some hostname) :
    extractStorageAccountName uri = .ok (firstDnsLabel hostname) := by
  unfold extractStorageAccountName
  rw [h]
  show Except.ok (String.mk ((pysplit '.' hostname.toList).headD [])) =
    Except.ok (firstDnsLabel hostname)
  rw [headD_pysplit]
  rfl

/-- Witness for C8 at a concrete Azure-style signature URI. -/
theorem extract_storage_account_is_first_dns_label_witness :
    urlparseHostname "https://myaccount.blob.core.windows.net/container?sv=2019" =
      some "myaccount.blob.core.windows.net" ∧
    extractStorageAccountName "https://myaccount.blob.core.windows.net/container?sv=2019" =
      .ok (firstDnsLabel "myaccount.blob.core.windows.net") :=
  ⟨by decide, extract_storage_account_is_first_dns_label _ _ (by decide)⟩

/-! ### Claim C4 -/

/-- C4 counterexample: a call of the renderer with `total == 0` but a nonzero
`current` raises `ZeroDivisionError` — the code only guards `current == 0`, so
the claim's "total == 0 or current == 0" is too broad. -/
theorem progressbar_zero_total_division_error :
    progressbar 1 0 "Uploading" 40 = .error "ZeroDivisionError" := rfl

/-- C4 amended: for every call of the renderer with `current == 0` (any
`total`, including `total == 0`), no division error occurs — the call returns
output — and the bar is 0%-filled (the computed fill width is `0`). -/
theorem progressbar_current_zero_zero_fill (total progressBarSize : Nat)
    (label : String) :
    progressbarFill 0 total progressBarSize = .ok 0 ∧
    ∃ out, progressbar 0 total label progressBarSize = .ok out :=
  ⟨rfl, ⟨_, rfl⟩⟩

/-! ### Claim C6 -/

/-- C6: a zero-progress invocation of the upload or download callback produces
no console output (and, for upload, leaves the stored byte count unchanged):
the initial zero-progress redraw is suppressed, so the bar is only redrawn on
callbacks with nonzero `current`. -/
theorem zero_progress_callback_no_output (verbose : Bool) (lastBytes total : Nat) :
    upload_callback verbose lastBytes 0 total = .ok ("", lastBytes) ∧
    download_callback verbose 0 total = .ok "" := by
  constructor <;> simp [upload_callback, download_callback]

/-! ### Claim C7 -/

/-- C7: whenever the renderer produces output, that output ends with a line
break exactly when `current == total`, and otherwise ends with a carriage
return (so the next call redraws in place on the same line). -/
theorem progressbar_trailing_newline_iff_complete
    (current total progressBarSize : Nat) (label out : String)
    (h : progressbar current total label progressBarSize = .ok out) :
    (out.toList.getLast? = some '\n' ↔ current = total) ∧
    (current ≠ total → out.toList.getLast? = some '\r') := by
  unfold progressbar at h
  rcases hf : progressbarFill current total progressBarSize with e | x
  · rw [hf] at h; exact absurd h (by simp)
  · rw [hf] at h
    simp only [Except.ok.injEq] at h
    subst h
    exact cr_nl_getLast _ (current = total)

/-- Witness for C7 at the completed call `render(5, 5)`: the output ends with a
line break. -/
theorem progressbar_trailing_newline_iff_complete_witness :
    (("Uploading [########################################] 5/5\r\r\n").toList.getLast?
        = some '\n' ↔ (5 : Nat) = 5) ∧
    ((5 : Nat) ≠ 5 →
      ("Uploading [########################################] 5/5\r\r\n").toList.getLast?
        = some '\r') :=
  progressbar_trailing_newline_iff_complete 5 5 40 "Uploading" _ (by rfl)

/-! ### Shared concrete inputs for witnesses and counterexamples -/

/-- A concrete client as built by the constructor with the default flags. -/
def witnessClient : Client :=
  IronBoxDXRESTClient "pubid" "secret" "https://dx-api.ironbox.app/api/v2/" true false true

/-- A transport that refuses every request with a 500 status and a body that is
not valid JSON (so any attempt to parse it would itself raise). -/
def refusingTransport : Transport :=
  fun _ => { status_code := 500, body := none }

/-! ### Claim C2 -/

/-- C2: for every public client operation, when the transport answers with a
status code other than 200 the operation raises exactly its named error, for
every response body — including a body that is not valid JSON, which shows the
body is never JSON-parsed on the non-200 path (a parse would raise
`JSONDecodeError` instead of the named error). -/
theorem non200_gives_named_error_without_parsing
    (c : Client) (transport : Transport)
    (s1 s2 s3 s4 s5 s6 s7 s8 : String) (b1 b2 b3 b4 : Bool) (i1 i2 i3 : Int)
    (j1 j2 : Json) (events : List (Nat × Nat))
    (hT : ∀ req, (transport req).status_code ≠ 200) :
    createSSEContainer c transport s1 s2 s3 b1 s4 s5 =
      .error "Unable to create SSE container" ∧
    listStorageEndpointsForUser c transport =
      .error "Unable to get list of accessible storage endpoints" ∧
    deleteSSEContainer c transport s1 =
      .error "Unable to delete SSE container" ∧
    listSSEContainers c transport b1 =
      .error "Unable to list server-side encrypted containers" ∧
    listSSEContainerBlobs c transport s1 i1 i2 i3 =
      .error "Unable to list server-side encrypted blobs" ∧
    deleteSSEContainerBlob c transport s1 =
      .error "Unable to delete server-side encrypted blob" ∧
    getContainerNotificationSettings c transport s1 =
      .error "Unable to read container notification settings" ∧
    setContainerNotificationSettings c transport s1 j1 j2 =
      .error "Unable to set container notification settings" ∧
    addUserToSSEContainerACLs c transport s1 s2 b1 b2 b3 b4 s3 s4 =
      .error "Unable to add user to server-side encrypted container ACLs" ∧
    addCustomSecurityGroupToSSEContainerACLs c transport s1 s2 b1 b2 b3 b4 s3 s4 =
      .error "Unable to add custom security group to server-side encrypted container ACLs" ∧
    deleteSSEContainerACL c transport s1 s2 =
      .error "Unable to remove server-side encrypted container ACL" ∧
    listSSEContainerACLs c transport s1 =
      .error "Unable to read server-side encrypted container ACLs" ∧
    management_readContainerMetaData c transport s1 =
      .error "Unable to read meta data for blob" ∧
    management_setEntityOrganizationMembershipStatus c transport s1 b1 =
      .error "Unable to set organization user status" ∧
    management_createOrganizationEntity c transport s1 s2 b1 =
      .error "Unable to create organization entity" ∧
    management_listOrganizationMemberEntities c transport i1 i2 =
      .error "Unable to list organization member entities" ∧
    management_readOrganizationMemberEntityMetadata c transport s1 =
      .error "Unable to read organization member entity metadata" ∧
    management_setContainerDataTtl c transport s1 i1 b1 =
      .error "Unable to set container data ttl" ∧
    management_setContainerMetadata c transport s1 i1 s2 =
      .error "Unable to set container metadata" ∧
    management_createCustomSecurityGroup c transport s1 b1 =
      .error "Unable to create custom security group" ∧
    management_deleteCustomSecurityGroup c transport s1 =
      .error "Unable to delete custom security group" ∧
    management_updateCustomSecurityGroup c transport s1 s2 b1 =
      .error "Unable to update custom security group" ∧
    management_addMemberToCustomSecurityGroup c transport s1 s2 =
      .error "Unable to add member to custom security group" ∧
    management_removeMemberFromCustomSecurityGroup c transport s1 s2 =
      .error "Unable to remove member from custom security group" ∧
    management_listCustomSecurityGroups c transport =
      .error "Unable to list custom security groups" ∧
    management_readCustomSecurityGroup c transport s1 =
      .error "Unable to read custom security group" ∧
    management_readContainerLinkBasedAccessSettings c transport s1 =
      .error "Unable to read container link-based settings" ∧
    management_setContainerLinkBasedAccessSettings c transport s1 b1 b2 b3 s2 =
      .error "Unable to set container link-based settings" ∧
    management_addMemberToBuiltInSecurityGroup c transport s1 s2 =
      .error "Unable to add member to built-in security group" ∧
    management_removeMemberFromBuiltInSecurityGroup c transport s1 s2 =
      .error "Unable to remove member from built-in security group" ∧
    management_readBuiltInSecurityGroup c transport s1 =
      .error "Unable to read built-in security group" ∧
    (uploadBlobToSSEContainerFromPath c transport events s1 s2 s3 s4 s5).result =
      .error "Unable to initialize SSE blob" ∧
    (uploadBlobToSSEContainerFromText c transport events s1 s2 s3 s6 s4 s5).result =
      .error "Unable to initialize SSE blob" ∧
    (downloadSSEContainerBlobToPath c transport events s1 s2).1 =
      .error "Unable to download SSE blob" := by
  have hI : initializeBlobToSSEContainer c transport s1 s2 s4 s5 =
      .error "Unable to initialize SSE blob" := by
    simp only [initializeBlobToSSEContainer, sendPost]
    rw [if_pos (hT _)]
  refine ⟨?_, ?_, ?_, ?_, ?_, ?_, ?_, ?_, ?_, ?_, ?_, ?_, ?_, ?_, ?_, ?_, ?_,
    ?_, ?_, ?_, ?_, ?_, ?_, ?_, ?_, ?_, ?_, ?_, ?_, ?_, ?_, ?_, ?_, ?_⟩
  · simp only [createSSEContainer, sendPost]; rw [if_pos (hT _)]
  · simp only [listStorageEndpointsForUser, sendPost]; rw [if_pos (hT _)]
  · simp only [deleteSSEContainer, sendPost]; rw [if_pos (hT _)]
  · simp only [listSSEContainers, sendPost]; rw [if_pos (hT _)]
  · simp only [listSSEContainerBlobs, sendPost]; rw [if_pos (hT _)]
  · simp only [deleteSSEContainerBlob, sendPost]; rw [if_pos (hT _)]
  · simp only [getContainerNotificationSettings, sendPost]; rw [if_pos (hT _)]
  · simp only [setContainerNotificationSettings, sendPost]; rw [if_pos (hT _)]
  · simp only [addUserToSSEContainerACLs, sendPost]; rw [if_pos (hT _)]
  · simp only [addCustomSecurityGroupToSSEContainerACLs, sendPost]
    rw [if_pos (hT _)]
  · simp only [deleteSSEContainerACL, sendPost]; rw [if_pos (hT _)]
  · simp only [listSSEContainerACLs, sendPost]; rw [if_pos (hT _)]
  · simp only [management_readContainerMetaData, sendPost]; rw [if_pos (hT _)]
  · simp only [management_setEntityOrganizationMembershipStatus, sendPost]
    rw [if_pos (hT _)]
  · simp only [management_createOrganizationEntity, sendPost]; rw [if_pos (hT _)]
  · simp only [management_listOrganizationMemberEntities, sendPost]
    rw [if_pos (hT _)]
  · simp only [management_readOrganizationMemberEntityMetadata, sendPost]
    rw [if_pos (hT _)]
  · simp only [management_setContainerDataTtl, sendPost]; rw [if_pos (hT _)]
  · simp only [management_setContainerMetadata, sendPost]; rw [if_pos (hT _)]
  · simp only [management_createCustomSecurityGroup, sendPost]; rw [if_pos (hT _)]
  · simp only [management_deleteCustomSecurityGroup, sendPost]; rw [if_pos (hT _)]
  · simp only [management_updateCustomSecurityGroup, sendPost]; rw [if_pos (hT _)]
  · simp only [management_addMemberToCustomSecurityGroup, sendPost]
    rw [if_pos (hT _)]
  · simp only [management_removeMemberFromCustomSecurityGroup, sendPost]
    rw [if_pos (hT _)]
  · simp only [management_listCustomSecurityGroups, sendPost]; rw [if_pos (hT _)]
  · simp only [management_readCustomSecurityGroup, sendPost]; rw [if_pos (hT _)]
  · simp only [management_readContainerLinkBasedAccessSettings, sendPost]
    rw [if_pos (hT _)]
  · simp only [management_setContainerLinkBasedAccessSettings, sendPost]
    rw [if_pos (hT _)]
  · simp only [management_addMemberToBuiltInSecurityGroup, sendPost]
    rw [if_pos (hT _)]
  · simp only [management_removeMemberFromBuiltInSecurityGroup, sendPost]
    rw [if_pos (hT _)]
  · simp only [management_readBuiltInSecurityGroup, sendPost]; rw [if_pos (hT _)]
  · simp [uploadBlobToSSEContainerFromPath, hI]
  · simp [uploadBlobToSSEContainerFromText, hI]
  · simp only [downloadSSEContainerBlobToPath, sendPost]; rw [if_pos (hT _)]

/-- Witness for C2: the refusing transport at a concrete create-container call. -/
theorem non200_gives_named_error_without_parsing_witness :
    createSSEContainer witnessClient refusingTransport "n" "ep" "d" false "" "" =
      .error "Unable to create SSE container" :=
  (non200_gives_named_error_without_parsing witnessClient refusingTransport
    "n" "ep" "d" "" "" "" "" "" false false false false 0 0 0 .null .null []
    (fun _ => by simp only [refusingTransport]; decide)).1

/-! ### Claim C3 -/

/-- C3: on an HTTP 200 whose body parses to an empty or null JSON value (Python
falsy: `null`, `{}`, `[]`, …), blob initialize raises its invalid-response
error, while blob finalize returns that same value successfully: the same
empty-body shape is a failure for initialize and a valid success for finalize. -/
theorem initialize_rejects_empty_body_finalize_accepts
    (c : Client) (resp : HTTPResponse) (s1 s2 s3 s4 : String)
    (tok pid : Json) (size : Int) (j : Json)
    (hs : resp.status_code = 200) (hb : resp.body = some j) (hf : j.falsy = true) :
    initializeBlobToSSEContainer c (fun _ => resp) s1 s2 s3 s4 =
      .error "Initialize SSE blob returned an invalid response" ∧
    finalizeBlobInSSEContainer c (fun _ => resp) tok pid size = .ok j := by
  constructor
  · simp [initializeBlobToSSEContainer, sendPost, HTTPResponse.json, hs, hb, hf]
  · simp [finalizeBlobInSSEContainer, sendPost, HTTPResponse.json, hs, hb]

/-- Witness for C3 at a concrete 200 response with a `null` body. -/
theorem initialize_rejects_empty_body_finalize_accepts_witness :
    initializeBlobToSSEContainer witnessClient
        (fun _ => { status_code := 200, body := some .null }) "c" "b" "" "" =
      .error "Initialize SSE blob returned an invalid response" ∧
    finalizeBlobInSSEContainer witnessClient
        (fun _ => { status_code := 200, body := some .null })
        (.str "t") (.str "p") 7 = .ok .null :=
  initialize_rejects_empty_body_finalize_accepts witnessClient
    { status_code := 200, body := some .null } "c" "b" "" ""
    (.str "t") (.str "p") 7 .null rfl rfl rfl

/-! ### Claim C5 -/

/-- C5 counterexample: `deleteSSEContainerBlob`, on a 200 response carrying the
parsed JSON `"hello"`, does not return the parsed result — its `return` is
commented out in the source, so it returns `None`. -/
theorem deleteSSEContainerBlob_discards_response_cex :
    deleteSSEContainerBlob witnessClient
        (fun _ => { status_code := 200, body := some (.str "hello") }) "blob1" =
      .ok none ∧
    deleteSSEContainerBlob witnessClient
        (fun _ => { status_code := 200, body := some (.str "hello") }) "blob1" ≠
      .ok (some (.str "hello")) :=
  ⟨rfl, fun hcontr => Option.noConfusion (Except.ok.inj hcontr)⟩

/-- C5 amended: on a 200 response every CRUD/management operation other than
`deleteSSEContainerBlob` returns the JSON-parsed server response unchanged;
`deleteSSEContainerBlob` parses the response but discards it and returns
`None`. -/
theorem crud_200_returns_parsed_json_unchanged
    (c : Client) (resp : HTTPResponse) (j : Json)
    (s1 s2 s3 s4 s5 : String) (b1 b2 b3 b4 : Bool) (i1 i2 i3 : Int)
    (j1 j2 : Json)
    (hs : resp.status_code = 200) (hb : resp.body = some j) :
    listSSEContainers c (fun _ => resp) b1 = .ok j ∧
    createSSEContainer c (fun _ => resp) s1 s2 s3 b1 s4 s5 = .ok j ∧
    listStorageEndpointsForUser c (fun _ => resp) = .ok j ∧
    deleteSSEContainer c (fun _ => resp) s1 = .ok j ∧
    listSSEContainerBlobs c (fun _ => resp) s1 i1 i2 i3 = .ok j ∧
    getContainerNotificationSettings c (fun _ => resp) s1 = .ok j ∧
    setContainerNotificationSettings c (fun _ => resp) s1 j1 j2 = .ok j ∧
    addUserToSSEContainerACLs c (fun _ => resp) s1 s2 b1 b2 b3 b4 s3 s4 = .ok j ∧
    addCustomSecurityGroupToSSEContainerACLs c (fun _ => resp) s1 s2 b1 b2 b3 b4 s3 s4 = .ok j ∧
    deleteSSEContainerACL c (fun _ => resp) s1 s2 = .ok j ∧
    listSSEContainerACLs c (fun _ => resp) s1 = .ok j ∧
    management_readContainerMetaData c (fun _ => resp) s1 = .ok j ∧
    management_setEntityOrganizationMembershipStatus c (fun _ => resp) s1 b1 = .ok j ∧
    management_createOrganizationEntity c (fun _ => resp) s1 s2 b1 = .ok j ∧
    management_listOrganizationMemberEntities c (fun _ => resp) i1 i2 = .ok j ∧
    management_readOrganizationMemberEntityMetadata c (fun _ => resp) s1 = .ok j ∧
    management_setContainerDataTtl c (fun _ => resp) s1 i1 b1 = .ok j ∧
    management_setContainerMetadata c (fun _ => resp) s1 i1 s2 = .ok j ∧
    management_createCustomSecurityGroup c (fun _ => resp) s1 b1 = .ok j ∧
    management_deleteCustomSecurityGroup c (fun _ => resp) s1 = .ok j ∧
    management_updateCustomSecurityGroup c (fun _ => resp) s1 s2 b1 = .ok j ∧
    management_addMemberToCustomSecurityGroup c (fun _ => resp) s1 s2 = .ok j ∧
    management_removeMemberFromCustomSecurityGroup c (fun _ => resp) s1 s2 = .ok j ∧
    management_listCustomSecurityGroups c (fun _ => resp) = .ok j ∧
    management_readCustomSecurityGroup c (fun _ => resp) s1 = .ok j ∧
    management_readContainerLinkBasedAccessSettings c (fun _ => resp) s1 = .ok j ∧
    management_setContainerLinkBasedAccessSettings c (fun _ => resp) s1 b1 b2 b3 s2 = .ok j ∧
    management_addMemberToBuiltInSecurityGroup c (fun _ => resp) s1 s2 = .ok j ∧
    management_removeMemberFromBuiltInSecurityGroup c (fun _ => resp) s1 s2 = .ok j ∧
    management_readBuiltInSecurityGroup c (fun _ => resp) s1 = .ok j ∧
    deleteSSEContainerBlob c (fun _ => resp) s1 = .ok none := by
  refine ⟨?_, ?_, ?_, ?_, ?_, ?_, ?_, ?_, ?_, ?_, ?_, ?_, ?_, ?_, ?_, ?_, ?_,
    ?_, ?_, ?_, ?_, ?_, ?_, ?_, ?_, ?_, ?_, ?_, ?_, ?_, ?_⟩
  · simp [listSSEContainers, sendPost, HTTPResponse.json, hs, hb]
  · simp [createSSEContainer, sendPost, HTTPResponse.json, hs, hb]
  · simp [listStorageEndpointsForUser, sendPost, HTTPResponse.json, hs, hb]
  · simp [deleteSSEContainer, sendPost, HTTPResponse.json, hs, hb]
  · simp [listSSEContainerBlobs, sendPost, HTTPResponse.json, hs, hb]
  · simp [getContainerNotificationSettings, sendPost, HTTPResponse.json, hs, hb]
  · simp [setContainerNotificationSettings, sendPost, HTTPResponse.json, hs, hb]
  · simp [addUserToSSEContainerACLs, sendPost, HTTPResponse.json, hs, hb]
  · simp [addCustomSecurityGroupToSSEContainerACLs, sendPost, HTTPResponse.json, hs, hb]
  · simp [deleteSSEContainerACL, sendPost, HTTPResponse.json, hs, hb]
  · simp [listSSEContainerACLs, sendPost, HTTPResponse.json, hs, hb]
  · simp [management_readContainerMetaData, sendPost, HTTPResponse.json, hs, hb]
  · simp [management_setEntityOrganizationMembershipStatus, sendPost, HTTPResponse.json, hs, hb]
  · simp [management_createOrganizationEntity, sendPost, HTTPResponse.json, hs, hb]
  · simp [management_listOrganizationMemberEntities, sendPost, HTTPResponse.json, hs, hb]
  · simp [management_readOrganizationMemberEntityMetadata, sendPost, HTTPResponse.json, hs, hb]
  · simp [management_setContainerDataTtl, sendPost, HTTPResponse.json, hs, hb]
  · simp [management_setContainerMetadata, sendPost, HTTPResponse.json, hs, hb]
  · simp [management_createCustomSecurityGroup, sendPost, HTTPResponse.json, hs, hb]
  · simp [management_deleteCustomSecurityGroup, sendPost, HTTPResponse.json, hs, hb]
  · simp [management_updateCustomSecurityGroup, sendPost, HTTPResponse.json, hs, hb]
  · simp [management_addMemberToCustomSecurityGroup, sendPost, HTTPResponse.json, hs, hb]
  · simp [management_removeMemberFromCustomSecurityGroup, sendPost, HTTPResponse.json, hs, hb]
  · simp [management_listCustomSecurityGroups, sendPost, HTTPResponse.json, hs, hb]
  · simp [management_readCustomSecurityGroup, sendPost, HTTPResponse.json, hs, hb]
  · simp [management_readContainerLinkBasedAccessSettings, sendPost, HTTPResponse.json, hs, hb]
  · simp [management_setContainerLinkBasedAccessSettings, sendPost, HTTPResponse.json, hs, hb]
  · simp [management_addMemberToBuiltInSecurityGroup, sendPost, HTTPResponse.json, hs, hb]
  · simp [management_removeMemberFromBuiltInSecurityGroup, sendPost, HTTPResponse.json, hs, hb]
  · simp [management_readBuiltInSecurityGroup, sendPost, HTTPResponse.json, hs, hb]
  · simp [deleteSSEContainerBlob, sendPost, HTTPResponse.json, hs, hb]

/-- Witness for C5 (amended) at a concrete 200 response. -/
theorem crud_200_returns_parsed_json_unchanged_witness :
    listSSEContainers witnessClient
        (fun _ => { status_code := 200, body := some (.arr [.str "c1"]) }) false =
      .ok (.arr [.str "c1"]) :=
  (crud_200_returns_parsed_json_unchanged witnessClient
    { status_code := 200, body := some (.arr [.str "c1"]) } (.arr [.str "c1"])
    "" "" "" "" "" false false false false 0 0 0 .null .null rfl rfl).1

/-! ### Upload-state lemmas -/

/-- The total reported by the last progress callback with nonzero `current`
during a transfer — the byte count observed during the transfer step. -/
def lastNonzeroTotal (events : List (Nat × Nat)) : Option Nat :=
  ((events.filter (fun p => p.1 != 0)).getLast?).map Prod.snd

/-- Running the upload callbacks only ever changes `__lastUploadTotalBytes`. -/
theorem runUploadCallbacks_client_shape (evs : List (Nat × Nat)) :
    ∀ c : Client, ∃ n,
      (runUploadCallbacks c evs).2 = { c with lastUploadTotalBytes := n } := by
  induction evs with
  | nil => exact fun c => ⟨c.lastUploadTotalBytes, rfl⟩
  | cons ev rest ih =>
    intro c
    obtain ⟨cur, tot⟩ := ev
    simp only [runUploadCallbacks]
    rcases hcb : upload_callback c.verbose c.lastUploadTotalBytes cur tot with e | p
    · exact ⟨c.lastUploadTotalBytes, rfl⟩
    · obtain ⟨out, nl⟩ := p
      obtain ⟨n, hn⟩ := ih { c with lastUploadTotalBytes := nl }
      exact ⟨n, hn⟩

/-- With `verbose = False`, the upload callbacks never raise and never change
the client: in particular `__lastUploadTotalBytes` keeps its prior value. -/
theorem runUploadCallbacks_not_verbose (evs : List (Nat × Nat)) :
    ∀ c : Client, c.verbose = false → runUploadCallbacks c evs = (none, c) := by
  induction evs with
  | nil => exact fun c _ => rfl
  | cons ev rest ih =>
    intro c hv
    obtain ⟨cur, tot⟩ := ev
    have hcb : upload_callback c.verbose c.lastUploadTotalBytes cur tot =
        .ok ("", c.lastUploadTotalBytes) := by
      simp [upload_callback, hv]
    simp only [runUploadCallbacks]
    rw [hcb]
    exact ih c hv

/-- With `verbose = True` and no error raised, running the upload callbacks
leaves `__lastUploadTotalBytes` equal to the total of the last nonzero-current
progress event, or its prior value when every event had `current == 0`. -/
theorem runUploadCallbacks_lastBytes (evs : List (Nat × Nat)) :
    ∀ c : Client, c.verbose = true → (runUploadCallbacks c evs).1 = none →
      ((runUploadCallbacks c evs).2).lastUploadTotalBytes =
        (lastNonzeroTotal evs).getD c.lastUploadTotalBytes := by
  induction evs with
  | nil => intro c _ _; simp [runUploadCallbacks, lastNonzeroTotal]
  | cons ev rest ih =>
    intro c hv hnone
    obtain ⟨cur, tot⟩ := ev
    by_cases hcur : cur = 0
    · subst hcur
      have hcb : upload_callback c.verbose c.lastUploadTotalBytes 0 tot =
          .ok ("", c.lastUploadTotalBytes) := by
        simp [upload_callback]
      simp only [runUploadCallbacks] at hnone ⊢
      rw [hcb] at hnone ⊢
      have hfilter : lastNonzeroTotal ((0, tot) :: rest) = lastNonzeroTotal rest := by
        simp [lastNonzeroTotal]
      rw [hfilter]
      exact ih c hv hnone
    · rcases hpb : progressbar cur tot "Uploading" 40 with e | out
      · have hcb : upload_callback c.verbose c.lastUploadTotalBytes cur tot =
            .error e := by
          simp [upload_callback, hv, hcur, hpb]
        simp only [runUploadCallbacks] at hnone
        rw [hcb] at hnone
        simp at hnone
      · have hcb : upload_callback c.verbose c.lastUploadTotalBytes cur tot =
            .ok (out, tot) := by
          simp [upload_callback, hv, hcur, hpb]
        simp only [runUploadCallbacks] at hnone ⊢
        rw [hcb] at hnone ⊢
        have hrec := ih { c with lastUploadTotalBytes := tot } hv hnone
        rw [hrec]
        have hb : (cur != 0) = true := by simpa using hcur
        have hcons : (((cur, tot) :: rest).filter (fun p => p.1 != 0)) =
            (cur, tot) :: rest.filter (fun p => p.1 != 0) := by
          simp [List.filter, hb]
        rcases hfr : rest.filter (fun p => p.1 != 0) with _ | ⟨y, ys⟩
        · simp [lastNonzeroTotal, hcons, hfr]
        · have hz := List.getLast?_eq_getLast (y :: ys) (by simp)
          simp [lastNonzeroTotal, hcons, hfr, List.getLast?_cons_cons, hz]

/-- On a successful run, the common upload tail sends exactly one more request —
the finalize POST — whose `originalSizeBytes` is the client's
`__lastUploadTotalBytes` after the transfer's progress callbacks ran. -/
theorem uploadCommonTail_ok_requests (c : Client) (T : Transport)
    (evs : List (Nat × Nat)) (ir : Json) (sent : List Request)
    (hok : (uploadCommonTail c T evs ir sent).result = .ok ()) :
    ∃ (tok pid : Json) (sas : Option (String × Json)),
      (runUploadCallbacks { c with sas_service := sas } evs).1 = none ∧
      (uploadCommonTail c T evs ir sent).sentRequests =
        sent ++ [postRequest c "dx/cloud/sse/blob/finalize/api"
          (finalizeBody tok pid
            ((((runUploadCallbacks { c with sas_service := sas } evs).2).lastUploadTotalBytes : Nat) : Int))] := by
  unfold uploadCommonTail at hok ⊢
  rcases h1 : (ir.getField "accessSignatureUri").bind Json.asString with e1 | uri
  · simp [h1] at hok
  simp only [h1] at hok ⊢
  rcases h2 : extractStorageAccountName uri with e2 | acct
  · simp [h2] at hok
  simp only [h2] at hok ⊢
  rcases h3 : ir.getField "accessToken" with e3 | tokn
  · simp [h3] at hok
  simp only [h3] at hok ⊢
  rcases h4 : ir.getField "cloudBlobStorageName" with e4 | bn
  · simp [h4] at hok
  simp only [h4] at hok ⊢
  rcases h5 : ir.getField "cloudContainerStorageName" with e5 | cn
  · simp [h5] at hok
  simp only [h5] at hok ⊢
  rcases hrun : runUploadCallbacks { c with sas_service := some (acct, tokn) } evs
    with ⟨os, c2⟩
  rcases os with _ | e6
  · simp only [hrun] at hok ⊢
    rcases h6 : ir.getField "finalizeToken" with e6 | tokv
    · simp [h6] at hok
    simp only [h6] at hok ⊢
    rcases h7 : ir.getField "blobPublicID" with e7 | pidv
    · simp [h7] at hok
    simp only [h7] at hok ⊢
    rcases h8 : finalizeBlobInSSEContainer c2 T tokv pidv
        (c2.lastUploadTotalBytes : Int) with e8 | jv
    · simp [h8] at hok
    simp only [h8] at hok ⊢
    refine ⟨tokv, pidv, some (acct, tokn), ?_, ?_⟩
    · rw [hrun]
    · obtain ⟨n, hn⟩ := runUploadCallbacks_client_shape evs
        { c with sas_service := some (acct, tokn) }
      rw [hrun] at hn
      dsimp only at hn
      subst hn
      rw [hrun]
      rfl
  · simp [hrun] at hok

/-- Every run of the common upload tail only changes `__lastUploadTotalBytes`
and the `sas_service` slot of the client. -/
theorem uploadCommonTail_client_shape (c : Client) (T : Transport)
    (evs : List (Nat × Nat)) (ir : Json) (sent : List Request) :
    ∃ (n : Nat) (s : Option (String × Json)),
      (uploadCommonTail c T evs ir sent).client =
        { c with lastUploadTotalBytes := n, sas_service := s } := by
  unfold uploadCommonTail
  rcases h1 : (ir.getField "accessSignatureUri").bind Json.asString with e1 | uri
  · exact ⟨c.lastUploadTotalBytes, c.sas_service, rfl⟩
  dsimp only
  rcases h2 : extractStorageAccountName uri with e2 | acct
  · exact ⟨c.lastUploadTotalBytes, c.sas_service, rfl⟩
  dsimp only
  rcases h3 : ir.getField "accessToken" with e3 | tokn
  · exact ⟨c.lastUploadTotalBytes, c.sas_service, rfl⟩
  dsimp only
  rcases h4 : ir.getField "cloudBlobStorageName" with e4 | bn
  · exact ⟨c.lastUploadTotalBytes, some (acct, tokn), rfl⟩
  rcases h5 : ir.getField "cloudContainerStorageName" with e5 | cn
  · exact ⟨c.lastUploadTotalBytes, some (acct, tokn), rfl⟩
  dsimp only
  rcases hrun : runUploadCallbacks { c with sas_service := some (acct, tokn) } evs
    with ⟨os, c2⟩
  obtain ⟨n, hn⟩ := runUploadCallbacks_client_shape evs
    { c with sas_service := some (acct, tokn) }
  rw [hrun] at hn
  dsimp only at hn
  rcases os with _ | e6
  · dsimp only
    rcases h6 : ir.getField "finalizeToken" with e6 | tokv
    · exact ⟨n, some (acct, tokn), hn⟩
    rcases h7 : ir.getField "blobPublicID" with e7 | pidv
    · exact ⟨n, some (acct, tokn), hn⟩
    dsimp only
    rcases h8 : finalizeBlobInSSEContainer c2 T tokv pidv
        (c2.lastUploadTotalBytes : Int) with e8 | jv
    · exact ⟨n, some (acct, tokn), hn⟩
    · exact ⟨n, some (acct, tokn), hn⟩
  · dsimp only
    exact ⟨n, some (acct, tokn), hn⟩

/-! ### Claim C9 -/

/-- The six configuration fields fixed by the constructor agree between two
client states. -/
def sameConfig (a b : Client) : Prop :=
  a.apiKeyPublicID = b.apiKeyPublicID ∧ a.apiKeySecret = b.apiKeySecret ∧
  a.baseAPIUrl = b.baseAPIUrl ∧ a.verifySSLCert = b.verifySSLCert ∧
  a.showDebugInfo = b.showDebugInfo ∧ a.verbose = b.verbose

/-- C9: the configuration fixed at construction is unchanged by every
operation — the only mutable state is `__lastUploadTotalBytes` and the
`sas_service` slot, touched by the transfer operations, whose resulting client
keeps all six configuration fields; and every HTTP POST the client sends
carries exactly the constructor's key pair as its two auth headers, targets the
constructor's base URL concatenated with the route suffix, and passes the
constructor's TLS-verification flag. (The control-plane operations are pure
functions of the client: they own no state at all, so this covers every public
operation.) -/
theorem config_fixed_and_auth_headers (c : Client) (transport : Transport)
    (route : String) (data : Json) (events : List (Nat × Nat))
    (s1 s2 s3 s4 s5 s6 : String) :
    (postRequest c route data).url = c.baseAPIUrl ++ route ∧
    (postRequest c route data).headers =
      [("ironbox_apikey_publicid", c.apiKeyPublicID),
       ("ironbox_apikey_secret", c.apiKeySecret)] ∧
    (postRequest c route data).verify = c.verifySSLCert ∧
    sameConfig c
      (uploadBlobToSSEContainerFromPath c transport events s1 s2 s3 s4 s5).client ∧
    sameConfig c
      (uploadBlobToSSEContainerFromText c transport events s1 s2 s3 s6 s4 s5).client ∧
    sameConfig c (downloadSSEContainerBlobToPath c transport events s1 s2).2 := by
  refine ⟨rfl, rfl, rfl, ?_, ?_, ?_⟩
  · unfold uploadBlobToSSEContainerFromPath
    rcases hI : initializeBlobToSSEContainer c transport s1 s2 s4 s5 with e | ir
    · exact ⟨rfl, rfl, rfl, rfl, rfl, rfl⟩
    · obtain ⟨n, s, hn⟩ := uploadCommonTail_client_shape c transport events ir
        [postRequest c "dx/cloud/sse/blob/initialize/api" (initializeBody s1 s2 s4 s5)]
      rw [hn]
      exact ⟨rfl, rfl, rfl, rfl, rfl, rfl⟩
  · unfold uploadBlobToSSEContainerFromText
    rcases hI : initializeBlobToSSEContainer c transport s1 s2 s4 s5 with e | ir
    · exact ⟨rfl, rfl, rfl, rfl, rfl, rfl⟩
    · obtain ⟨n, s, hn⟩ := uploadCommonTail_client_shape c transport events ir
        [postRequest c "dx/cloud/sse/blob/initialize/api" (initializeBody s1 s2 s4 s5)]
      rw [hn]
      exact ⟨rfl, rfl, rfl, rfl, rfl, rfl⟩
  · unfold downloadSSEContainerBlobToPath
    dsimp only
    split
    · exact ⟨rfl, rfl, rfl, rfl, rfl, rfl⟩
    rcases hj : (sendPost c transport "dx/cloud/sse/blob/download/api"
        (Json.obj [("blobPublicID", Json.str s1)])).json with e | dr
    · exact ⟨rfl, rfl, rfl, rfl, rfl, rfl⟩
    dsimp only
    rcases h1 : (dr.getField "accessSignatureUri").bind Json.asString with e1 | uri
    · exact ⟨rfl, rfl, rfl, rfl, rfl, rfl⟩
    dsimp only
    rcases h2 : extractStorageAccountName uri with e2 | acct
    · exact ⟨rfl, rfl, rfl, rfl, rfl, rfl⟩
    dsimp only
    rcases h3 : dr.getField "accessToken" with e3 | tokn
    · exact ⟨rfl, rfl, rfl, rfl, rfl, rfl⟩
    dsimp only
    rcases h4 : dr.getField "cloudBlobStorageName" with e4 | bn
    · exact ⟨rfl, rfl, rfl, rfl, rfl, rfl⟩
    rcases h5 : dr.getField "cloudContainerStorageName" with e5 | cn
    · exact ⟨rfl, rfl, rfl, rfl, rfl, rfl⟩
    dsimp only
    rcases h6 : runDownloadCallbacks
        ({ c with sas_service := some (acct, tokn) } : Client).verbose events with e6 | u
    · exact ⟨rfl, rfl, rfl, rfl, rfl, rfl⟩
    · exact ⟨rfl, rfl, rfl, rfl, rfl, rfl⟩

/-! ### Claims C1 and C10 -/

/-- A concrete initialize response carrying every field the upload tail reads. -/
def witnessInitJson : Json :=
  .obj [("accessSignatureUri", .str "https://myacct.blob.core.windows.net/c1?sig=abc"),
        ("accessToken", .str "sastoken"),
        ("cloudBlobStorageName", .str "blobstore"),
        ("cloudContainerStorageName", .str "containerstore"),
        ("finalizeToken", .str "ftok"),
        ("blobPublicID", .str "bpid")]

/-- A transport answering every request with 200 and `witnessInitJson`. -/
def okTransport : Transport :=
  fun _ => { status_code := 200, body := some witnessInitJson }

/-- A client constructed with `verbose = False`. -/
def quietClient : Client :=
  IronBoxDXRESTClient "pubid" "secret" "https://dx-api.ironbox.app/api/v2/"
    true false false

/-- C1 (amended): if the client was constructed with `verbose = True` and the
transfer reports at least one progress callback with nonzero `current`, then
for both upload methods a successful upload sends exactly the initialize
request followed by one finalize request whose `originalSizeBytes` equals the
total reported by the last nonzero-current callback — the byte count observed
during the transfer step. The size is never read from local file metadata: the
upload definitions receive no file size at all (the `os.stat` lines are
commented out in the source), so the only size finalize can use is the one the
progress callback stored. The original claim's "regardless of the client's
constructor flags" fails for `verbose = False` (see the counterexample): then
the callback stores nothing and finalize reuses the stale stored count. -/
theorem upload_finalize_size_is_observed_transfer_total
    (c : Client) (T : Transport) (evs : List (Nat × Nat))
    (s1 s2 s3 s4 s5 s6 : String) (n : Nat)
    (hv : c.verbose = true) (hn : lastNonzeroTotal evs = some n) :
    ((uploadBlobToSSEContainerFromPath c T evs s1 s2 s3 s4 s5).result = .ok () →
      ∃ tok pid,
        (uploadBlobToSSEContainerFromPath c T evs s1 s2 s3 s4 s5).sentRequests =
          [postRequest c "dx/cloud/sse/blob/initialize/api"
            (initializeBody s1 s2 s4 s5),
           postRequest c "dx/cloud/sse/blob/finalize/api"
            (finalizeBody tok pid (n : Int))]) ∧
    ((uploadBlobToSSEContainerFromText c T evs s1 s2 s3 s6 s4 s5).result = .ok () →
      ∃ tok pid,
        (uploadBlobToSSEContainerFromText c T evs s1 s2 s3 s6 s4 s5).sentRequests =
          [postRequest c "dx/cloud/sse/blob/initialize/api"
            (initializeBody s1 s2 s4 s5),
           postRequest c "dx/cloud/sse/blob/finalize/api"
            (finalizeBody tok pid (n : Int))]) := by
  constructor
  · intro hok
    unfold uploadBlobToSSEContainerFromPath at hok ⊢
    rcases hI : initializeBlobToSSEContainer c T s1 s2 s4 s5 with e | ir
    · simp [hI] at hok
    simp only [hI] at hok ⊢
    obtain ⟨tok, pid, sas, hnone, hreq⟩ := uploadCommonTail_ok_requests c T evs ir _ hok
    refine ⟨tok, pid, ?_⟩
    rw [hreq]
    have hlast := runUploadCallbacks_lastBytes evs { c with sas_service := sas } hv hnone
    rw [hn, Option.getD_some] at hlast
    rw [hlast]
    rfl
  · intro hok
    unfold uploadBlobToSSEContainerFromText at hok ⊢
    rcases hI : initializeBlobToSSEContainer c T s1 s2 s4 s5 with e | ir
    · simp [hI] at hok
    simp only [hI] at hok ⊢
    obtain ⟨tok, pid, sas, hnone, hreq⟩ := uploadCommonTail_ok_requests c T evs ir _ hok
    refine ⟨tok, pid, ?_⟩
    rw [hreq]
    have hlast := runUploadCallbacks_lastBytes evs { c with sas_service := sas } hv hnone
    rw [hn, Option.getD_some] at hlast
    rw [hlast]
    rfl

/-- C1 counterexample: for a client constructed with `verbose = False` —
constructor flags the original claim quantifies over — a successful upload
whose transfer reported the callback `(1024, 1024)` (observed size 1024)
finalizes with `originalSizeBytes = 0`, the stale stored count, not the byte
count observed during the transfer step. -/
theorem upload_finalize_size_not_observed_when_quiet_cex :
    (uploadBlobToSSEContainerFromPath quietClient okTransport [(1024, 1024)]
        "cid" "bname" "file.bin" "" "").result = .ok () ∧
    lastNonzeroTotal [(1024, 1024)] = some 1024 ∧
    (uploadBlobToSSEContainerFromPath quietClient okTransport [(1024, 1024)]
        "cid" "bname" "file.bin" "" "").sentRequests.getLast? =
      some (postRequest quietClient "dx/cloud/sse/blob/finalize/api"
        (finalizeBody (.str "ftok") (.str "bpid") 0)) :=
  ⟨rfl, rfl, rfl⟩

/-- Witness for C1 (amended): a verbose client whose transfer reported
callbacks `(512, 1024)` then `(1024, 1024)` finalizes with size 1024. -/
theorem upload_finalize_size_is_observed_transfer_total_witness :
    ∃ tok pid,
      (uploadBlobToSSEContainerFromPath witnessClient okTransport
          [(512, 1024), (1024, 1024)] "cid" "bname" "file.bin" "" "").sentRequests =
        [postRequest witnessClient "dx/cloud/sse/blob/initialize/api"
          (initializeBody "cid" "bname" "" ""),
         postRequest witnessClient "dx/cloud/sse/blob/finalize/api"
          (finalizeBody tok pid (1024 : Int))] := by
  have h := (upload_finalize_size_is_observed_transfer_total witnessClient okTransport
    [(512, 1024), (1024, 1024)] "cid" "bname" "file.bin" "" "" "utf-8" 1024
    rfl rfl).1 (by rfl)
  obtain ⟨tok, pid, hreq⟩ := h
  exact ⟨tok, pid, hreq⟩

/-- C10: with `verbose = False`, every invocation of the upload progress
callback leaves the stored last-upload byte count unchanged (and prints
nothing); consequently a successful upload performed with `verbose = False`
finalizes with whatever byte count was stored before that upload (initially 0),
whatever the transfer reported. -/
theorem quiet_upload_callback_keeps_stored_bytes
    (c : Client) (T : Transport) (evs : List (Nat × Nat))
    (s1 s2 s3 s4 s5 : String) (lastBytes current total : Nat) :
    upload_callback false lastBytes current total = .ok ("", lastBytes) ∧
    (c.verbose = false →
      (uploadBlobToSSEContainerFromPath c T evs s1 s2 s3 s4 s5).result = .ok () →
      ∃ tok pid,
        (uploadBlobToSSEContainerFromPath c T evs s1 s2 s3 s4 s5).sentRequests =
          [postRequest c "dx/cloud/sse/blob/initialize/api"
            (initializeBody s1 s2 s4 s5),
           postRequest c "dx/cloud/sse/blob/finalize/api"
            (finalizeBody tok pid (c.lastUploadTotalBytes : Int))]) := by
  constructor
  · simp [upload_callback]
  · intro hv hok
    unfold uploadBlobToSSEContainerFromPath at hok ⊢
    rcases hI : initializeBlobToSSEContainer c T s1 s2 s4 s5 with e | ir
    · simp [hI] at hok
    simp only [hI] at hok ⊢
    obtain ⟨tok, pid, sas, hnone, hreq⟩ := uploadCommonTail_ok_requests c T evs ir _ hok
    refine ⟨tok, pid, ?_⟩
    rw [hreq]
    have hrn := runUploadCallbacks_not_verbose evs { c with sas_service := sas } hv
    rw [hrn]
    rfl

/-- Witness for C10 at a concrete quiet upload whose transfer reported
`(2048, 2048)`: finalize carries the prior stored count 0. -/
theorem quiet_upload_callback_keeps_stored_bytes_witness :
    ∃ tok pid,
      (uploadBlobToSSEContainerFromPath quietClient okTransport [(2048, 2048)]
          "cid2" "bname2" "file2.bin" "" "").sentRequests =
        [postRequest quietClient "dx/cloud/sse/blob/initialize/api"
          (initializeBody "cid2" "bname2" "" ""),
         postRequest quietClient "dx/cloud/sse/blob/finalize/api"
          (finalizeBody tok pid (quietClient.lastUploadTotalBytes : Int))] :=
  (quiet_upload_callback_keeps_stored_bytes quietClient okTransport [(2048, 2048)]
    "cid2" "bname2" "file2.bin" "" "" 0 0 0).2 rfl (by rfl)

end IronBoxDX
